import Mathlib

/-!
Verification of the double-buffered gallery rotation scheduler
(`op_scripts/gallery_rotation.py`).

The scheduler is a per-tick callback (`onCook`) over persisted storage.  We
embed it as a pure step function over an explicit state record.  Python
floats are modelled as `ℚ` inside the state machine (all scheduler decisions
are order comparisons and field arithmetic) and as `ℝ` for the analytic
facts (continuity, monotonicity, trigonometry of the camera framing).
Python ints are `ℤ`; Python `%` on a positive modulus agrees with `Int.emod`.
-/

namespace GalleryRotation

/-- Bounding sphere: the `{'center': [x,y,z], 'radius': r}` dicts of the source. -/
structure Sphere where
  center : ℚ × ℚ × ℚ
  radius : ℚ
deriving DecidableEq, Repr

/-- Constant `DEFAULT_SPHERE = {'center': [0.0, 0.0, 0.0], 'radius': 50.0}`. -/
def DEFAULT_SPHERE : Sphere := ⟨(0, 0, 0), 50⟩

/-- Constant `BLEND_DURATION = 5.0` (seconds of wall-clock time for the blend). -/
def BLEND_DURATION : ℚ := 5

/-- Constant `STORAGE_VERSION = 14`. -/
def STORAGE_VERSION : ℤ := 14

/-- The jitter tolerance `0.1` in `fraction < prevFraction - 0.1` (line 234). -/
def JITTER_TOL : ℚ := 1/10

/-- The early threshold `0.05` in `fraction > 0.05` (line 249). -/
def EARLY_THRESHOLD : ℚ := 1/20

/-- The mid-cycle re-arm point `0.5` in `fraction < 0.5` (line 243). -/
def MID_CYCLE : ℚ := 1/2

/-- The blend trigger point `0.9` in `fraction >= 0.9` (line 261). -/
def BLEND_TRIGGER : ℚ := 9/10

/-- A fingerprint is the tuple of quantized sample positions returned by
`_getSceneFingerprint` (one `(int, int, int)` triple per sampled index). -/
abbrev Fingerprint := List (ℤ × ℤ × ℤ)

/-- Parsed `bounds.json`: a finite map from filename to sphere. -/
abbrev Bounds := List (String × Sphere)

/-- Function `_getSphere(bounds, filename)`: `bounds.get(filename, DEFAULT_SPHERE)`. -/
def getSphere (bounds : Bounds) (filename : String) : Sphere :=
  (bounds.lookup filename).getD DEFAULT_SPHERE

/-- Function `_smoothstep(t)`: clamp to `[0,1]`, then `t*t*(3 - 2*t)`. -/
def smoothstep (t : ℚ) : ℚ :=
  let t1 := max 0 (min 1 t)
  t1 * t1 * (3 - 2 * t1)

/-- Function `_lerpSphere(a, b, t)`: componentwise linear interpolation. -/
def lerpSphere (a b : Sphere) (t : ℚ) : Sphere :=
  { center := (a.center.1 + (b.center.1 - a.center.1) * t,
               a.center.2.1 + (b.center.2.1 - a.center.2.1) * t,
               a.center.2.2 + (b.center.2.2 - a.center.2.2) * t)
    radius := a.radius + (b.radius - a.radius) * t }

/-- Indexing `sceneFiles[i]` for a Python int index that is in range and nonnegative
at every use site (it is always `k % numScenes` with `numScenes ≥ 2`). -/
def sceneFileAt (files : List String) (i : ℤ) : String :=
  files.getD i.toNat ""

/-- The persisted `scriptOp.storage` fields of the scheduler. -/
structure GState where
  version : ℤ
  sceneFiles : List String
  bounds : Bounds
  activeInput : ℤ
  currentSceneIdx : ℤ
  preloaded : Bool
  prevFraction : ℚ
  blending : Bool
  blendStartTime : ℚ
  blendReady : Bool
  waitingForSceneChange : Bool
  oldSceneFingerprint : Option Fingerprint
  activeSphere : Sphere
  targetSphere : Sphere
  vFov : ℚ
deriving DecidableEq, Repr

/-- Per-tick external inputs: the timer fraction, the wall clock
(`absTime.seconds`), and the value `_getSceneFingerprint()` would return
from the live downstream point data this tick. -/
structure TickInput where
  fraction : ℚ
  now : ℚ
  fingerprint : Option Fingerprint
deriving DecidableEq, Repr

/-- Observable effects of one tick: the published channels that the claims
mention, plus the commands issued to collaborators (`_loadScene` calls,
`_setRestPositions` regeneration, `_resetFeedbackTextures`). -/
structure TickOutput where
  switchIndex : ℚ
  sceneIndex : ℤ
  nextSceneIndex : ℤ
  cameraSphere : Sphere
  loads : List (ℤ × String)
  regenFired : Bool
  feedbackReset : Bool
deriving DecidableEq, Repr

/-- One tick of the main body of `onCook` (source lines 210-298), entered
with valid storage and `numScenes ≥ 2`.  Local Python variables that shadow
storage are threaded explicitly; in particular the local `preloaded` is NOT
refreshed by the preload block (line 253 writes only storage), so the
blend-start check still sees the pre-preload value. -/
def onCookStep (st : GState) (inp : TickInput) : GState × TickOutput :=
  let numScenes : ℤ := st.sceneFiles.length
  -- deferred rest-position update (lines 224-231)
  let fpChanged : Bool := decide (inp.fingerprint ≠ st.oldSceneFingerprint)
  let regenFired := st.waitingForSceneChange && fpChanged
  let waiting1 := st.waitingForSceneChange && !fpChanged
  -- timer reset detection (lines 233-240)
  let timerReset : Bool := decide (inp.fraction < st.prevFraction - JITTER_TOL)
  let preloaded1 := if timerReset && !st.blending then false else st.preloaded
  -- arm the blend trigger (lines 243-245)
  let blendReady1 := if inp.fraction < MID_CYCLE then true else st.blendReady
  -- preload next scene into the inactive input (lines 247-258)
  let doPreload := !preloaded1 && !st.blending && !waiting1 && decide (inp.fraction > EARLY_THRESHOLD)
  let nextIdxP := (st.currentSceneIdx + 1) % numScenes
  let loads := if doPreload then [(1 - st.activeInput, sceneFileAt st.sceneFiles nextIdxP)] else []
  let preloaded2 := if doPreload then true else preloaded1
  let targetSphere1 :=
    if doPreload then getSphere st.bounds (sceneFileAt st.sceneFiles nextIdxP)
    else st.targetSphere
  -- start blend near the end of the cycle (lines 261-265); uses the stale
  -- local preloaded1, so a preload never chains into a blend the same tick
  let startBlend := !st.blending && blendReady1 && preloaded1 && decide (inp.fraction ≥ BLEND_TRIGGER)
  let blending1 := st.blending || startBlend
  let blendStartTime1 := if startBlend then inp.now else st.blendStartTime
  let blendReady2 := if startBlend then false else blendReady1
  let stMid : GState :=
    { st with
      prevFraction := inp.fraction
      preloaded := preloaded2
      blendReady := blendReady2
      blending := blending1
      blendStartTime := blendStartTime1
      waitingForSceneChange := waiting1
      targetSphere := targetSphere1 }
  -- switch index and camera framing (lines 268-298)
  if blending1 then
    let elapsed := inp.now - blendStartTime1
    if BLEND_DURATION ≤ elapsed then
      -- blend complete: swap active/inactive (lines 271-285)
      let activeInput2 := 1 - st.activeInput
      let currentSceneIdx2 := (st.currentSceneIdx + 1) % numScenes
      let stF := { stMid with
        activeInput := activeInput2
        currentSceneIdx := currentSceneIdx2
        blending := false
        preloaded := false
        activeSphere := targetSphere1
        oldSceneFingerprint := inp.fingerprint
        waitingForSceneChange := true }
      (stF,
        { switchIndex := (activeInput2 : ℚ)
          sceneIndex := currentSceneIdx2
          nextSceneIndex := (currentSceneIdx2 + 1) % numScenes
          cameraSphere := targetSphere1
          loads := loads
          regenFired := regenFired
          feedbackReset := true })
    else
      let blendFraction := smoothstep (elapsed / BLEND_DURATION)
      let inactiveInput := 1 - st.activeInput
      (stMid,
        { switchIndex :=
            (st.activeInput : ℚ) + ((inactiveInput - st.activeInput : ℤ) : ℚ) * blendFraction
          sceneIndex := st.currentSceneIdx
          nextSceneIndex := (st.currentSceneIdx + 1) % numScenes
          cameraSphere := lerpSphere st.activeSphere targetSphere1 blendFraction
          loads := loads
          regenFired := regenFired
          feedbackReset := false })
  else
    (stMid,
      { switchIndex := (st.activeInput : ℚ)
        sceneIndex := st.currentSceneIdx
        nextSceneIndex := (st.currentSceneIdx + 1) % numScenes
        cameraSphere := st.activeSphere
        loads := loads
        regenFired := regenFired
        feedbackReset := false })

/-- The storage re-initialization branch (source lines 163-208), entered on
version mismatch.  `shuffled` is the scene list after `random.shuffle`,
`bounds` the parsed `bounds.json`, `vFov` the cached camera vertical FOV.
Returns the fresh storage and the two initial `_loadScene` commands
(`_setRestPositions` is also called here; see `onCook`). -/
def initStorage (shuffled : List String) (bounds : Bounds) (vFov : ℚ) :
    GState × List (ℤ × String) :=
  let numScenes : ℤ := shuffled.length
  ({ version := STORAGE_VERSION
     sceneFiles := shuffled
     bounds := bounds
     activeInput := 0
     currentSceneIdx := 0
     preloaded := true
     prevFraction := 0
     blending := false
     blendStartTime := 0
     blendReady := false
     waitingForSceneChange := false
     oldSceneFingerprint := none
     activeSphere := getSphere bounds (sceneFileAt shuffled 0)
     targetSphere := getSphere bounds (sceneFileAt shuffled (1 % numScenes))
     vFov := vFov },
   [(0, sceneFileAt shuffled 0), (1, sceneFileAt shuffled (1 % numScenes))])

/-- The idle/disabled output published by the early returns of `onCook`
(no timer input, or fewer than 2 scenes). -/
def idleOutput : TickOutput :=
  { switchIndex := 0
    sceneIndex := 0
    nextSceneIndex := 0
    cameraSphere := DEFAULT_SPHERE
    loads := []
    regenFired := false
    feedbackReset := false }

/-- External configuration read each tick: `_getSceneFiles()` and (at init)
`_loadBounds()`. -/
structure Env where
  sceneFiles : List String
  bounds : Bounds
deriving DecidableEq, Repr

/-- The init-then-continue path of `onCook`: re-initialize storage, then run
the main body on the same tick.  The tick's loads are the two initial loads
followed by any preload, and `_setRestPositions` was called during init. -/
def onCookInit (env : Env) (inp : TickInput) (shuffled : List String) (vFov : ℚ) :
    Option GState × TickOutput :=
  let r := initStorage shuffled env.bounds vFov
  let s := onCookStep r.1 inp
  (some s.1, { s.2 with loads := r.2 ++ s.2.loads, regenFired := true })

/-- Whether `scriptOp.storage.get('version') != STORAGE_VERSION`. -/
def versionMismatch (storage : Option GState) : Bool :=
  match storage with
  | none => true
  | some st => decide (st.version ≠ STORAGE_VERSION)

/-- Full `onCook` for a tick with a timer input present: the `< 2` scene
early return (lines 156-160), the version-gated re-init (lines 163-208), and
the main body. -/
def onCook (env : Env) (storage : Option GState) (inp : TickInput)
    (shuffled : List String) (vFov : ℚ) : Option GState × TickOutput :=
  if env.sceneFiles.length < 2 then
    (storage, idleOutput)
  else
    match storage with
    | none => onCookInit env inp shuffled vFov
    | some st =>
      if st.version = STORAGE_VERSION then
        let s := onCookStep st inp
        (some s.1, s.2)
      else
        onCookInit env inp shuffled vFov

/-- Iterate `onCookStep` over a list of tick inputs, collecting outputs. -/
def runTicks (st : GState) : List TickInput → GState × List TickOutput
  | [] => (st, [])
  | inp :: rest =>
    let s := onCookStep st inp
    let r := runTicks s.1 rest
    (r.1, s.2 :: r.2)

/-- Number of ticks in a run on which the regeneration action fired. -/
def countRegen (outs : List TickOutput) : ℕ :=
  (outs.filter (fun o => o.regenFired)).length

/-- Function `_smoothstep` over the reals, for the analytic facts about the
blend curve. -/
noncomputable def smoothstepR (t : ℝ) : ℝ :=
  let t1 := max 0 (min 1 t)
  t1 * t1 * (3 - 2 * t1)

/-- The blend-control value as a function of the active slot id and the
wall-clock elapsed time: the formula of line 289 for `elapsed < BLEND_DURATION`
and, because the clamp saturates, also the swap output `1 - activeInput` of
line 278 once `elapsed` reaches the duration. -/
noncomputable def blendValue (a e : ℝ) : ℝ :=
  a + ((1 - a) - a) * smoothstepR (e / ((BLEND_DURATION : ℚ) : ℝ))

/-- Constant `FRAMING_MARGIN = 0.01`. -/
noncomputable def FRAMING_MARGIN : ℝ := 1/100

/-- Function `math.radians(d) = d * pi / 180`. -/
noncomputable def radians (d : ℝ) : ℝ := d * (Real.pi / 180)

/-- The camera distance computed by `_outputChannels` (line 120):
`radius / tan(radians(vFov / 2)) * (1 + FRAMING_MARGIN)`. -/
noncomputable def cameraDistance (vFov radius : ℝ) : ℝ :=
  radius / Real.tan (radians (vFov / 2)) * (1 + FRAMING_MARGIN)

/-- A generic mid-rotation state used to build the concrete witness and
counterexample states below. -/
def baseState : GState :=
  { version := 14, sceneFiles := ["a.ply", "b.ply"], bounds := []
    activeInput := 0, currentSceneIdx := 0, preloaded := true, prevFraction := 9/10
    blending := true, blendStartTime := 0, blendReady := false
    waitingForSceneChange := false, oldSceneFingerprint := none
    activeSphere := DEFAULT_SPHERE, targetSphere := DEFAULT_SPHERE, vFov := 26 }

/-- Concrete blending state for the C1 witness. -/
def stC1w : GState := baseState

/-- Concrete tick input for the C1 witness: 10 seconds into a 5-second blend. -/
def inpC1w : TickInput := { fraction := 95/100, now := 10, fingerprint := some [(1, 2, 3)] }

/-- Concrete blending state for C2: active sphere radius 0, target radius 1. -/
def stC2 : GState :=
  { baseState with activeSphere := ⟨(0, 0, 0), 0⟩, targetSphere := ⟨(0, 0, 0), 1⟩ }

/-- Concrete tick input for C2: a quarter of the way through the blend. -/
def inpC2 : TickInput := { fraction := 95/100, now := 5/4, fingerprint := none }

/-- Concrete state for the C3 witness: preload pending. -/
def stC3w : GState := { baseState with blending := false, preloaded := false }

/-- Concrete tick input for the C3 witness. -/
def inpC3w : TickInput := { fraction := 3/10, now := 1, fingerprint := none }

/-- Concrete state for the second C3 witness instance: preloaded at tick
entry, but a same-tick timer reset clears the flag before the preload check. -/
def stC3r : GState := { baseState with blending := false, prevFraction := 95/100 }

/-- Concrete tick input for the second C3 witness instance: the fraction
dropped from 0.95 to 0.3, past the 0.1 jitter tolerance. -/
def inpC3r : TickInput := { fraction := 3/10, now := 1, fingerprint := none }

/-- Concrete state for the C4 witness. -/
def stC4w : GState := { baseState with blending := false }

/-- Concrete tick input for the C4 witness: the timer wrapped back to 0. -/
def inpC4w : TickInput := { fraction := 0, now := 1, fingerprint := none }

/-- Concrete state for the C5 witness: gate awaiting a data change. -/
def stC5w : GState := { baseState with blending := false, waitingForSceneChange := true }

/-- Concrete tick input for the C5 witness: the fingerprint has changed. -/
def inpC5w : TickInput := { fraction := 1/2, now := 1, fingerprint := some [(1, 2, 3)] }

/-- Concrete state for the C6 counterexample: blending away from slot 1. -/
def stC6 : GState := { baseState with activeInput := 1 }

/-- Concrete tick input for the C6 counterexample: halfway through the blend. -/
def inpC6 : TickInput := { fraction := 95/100, now := 5/2, fingerprint := none }

/-- Concrete state for the C6 witness: not blending. -/
def stC6w : GState := { baseState with blending := false }

/-- Concrete tick input for the C6 witness. -/
def inpC6w : TickInput := { fraction := 95/100, now := 1, fingerprint := none }

/-- Concrete blending state for the C7 witness. -/
def stC7w : GState := { baseState with blendStartTime := 1 }

/-- Concrete tick input for the C7 witness. -/
def inpC7w : TickInput := { fraction := 95/100, now := 2, fingerprint := none }

/-- Concrete one-scene environment for the C8 witness. -/
def envC8 : Env := { sceneFiles := ["solo.ply"], bounds := [] }

/-- Concrete tick input for the C8 witness. -/
def inpC8 : TickInput := { fraction := 1/2, now := 0, fingerprint := none }

/-! ### Helper lemmas about single ticks of the scheduler -/

theorem smoothstep_eq (t : ℚ) :
    smoothstep t = max 0 (min 1 t) * max 0 (min 1 t) * (3 - 2 * max 0 (min 1 t)) := rfl

theorem smoothstep_nonneg (t : ℚ) : 0 ≤ smoothstep t := by
  rw [smoothstep_eq]
  have h0 : (0:ℚ) ≤ max 0 (min 1 t) := le_max_left _ _
  have h1 : max 0 (min 1 t) ≤ 1 := max_le (by norm_num) (min_le_left _ _)
  nlinarith

theorem smoothstep_le_one (t : ℚ) : smoothstep t ≤ 1 := by
  rw [smoothstep_eq]
  have h0 : (0:ℚ) ≤ max 0 (min 1 t) := le_max_left _ _
  have h1 : max 0 (min 1 t) ≤ 1 := max_le (by norm_num) (min_le_left _ _)
  nlinarith [sq_nonneg (1 - max 0 (min 1 t))]

theorem smoothstep_lt_one (t : ℚ) (ht : t < 1) : smoothstep t < 1 := by
  rw [smoothstep_eq]
  have hmin : min 1 t = t := min_eq_right ht.le
  have h0 : (0:ℚ) ≤ max 0 (min 1 t) := le_max_left _ _
  have h1 : max 0 (min 1 t) < 1 := by
    rw [hmin]; exact max_lt (by norm_num) ht
  nlinarith [mul_pos (mul_pos (sub_pos.mpr h1) (sub_pos.mpr h1))
    (by linarith : (0:ℚ) < 1 + 2 * max 0 (min 1 t))]

theorem smoothstep_zero : smoothstep 0 = 0 := by
  rw [smoothstep_eq]; norm_num

theorem preload_fires (st : GState) (inp : TickInput)
    (hb : st.blending = false)
    (hp : st.preloaded = false ∨ inp.fraction < st.prevFraction - JITTER_TOL)
    (hw : st.waitingForSceneChange = false ∨ inp.fingerprint ≠ st.oldSceneFingerprint)
    (hf : EARLY_THRESHOLD < inp.fraction) :
    (onCookStep st inp).2.loads =
      [(1 - st.activeInput,
        sceneFileAt st.sceneFiles ((st.currentSceneIdx + 1) % (st.sceneFiles.length : ℤ)))] ∧
    (onCookStep st inp).1.preloaded = true ∧
    (onCookStep st inp).1.targetSphere =
      getSphere st.bounds
        (sceneFileAt st.sceneFiles ((st.currentSceneIdx + 1) % (st.sceneFiles.length : ℤ))) := by
  rcases hp with hp | hr
  · rcases hw with hw | hfp
    · simp [onCookStep, hp, hb, hw, hf]
      try (split_ifs <;> simp_all [BLEND_DURATION])
    · simp [onCookStep, hp, hb, hfp, hf]
      try (split_ifs <;> simp_all [BLEND_DURATION])
  · rcases hw with hw | hfp
    · simp [onCookStep, hr, hb, hw, hf]
      try (split_ifs <;> simp_all [BLEND_DURATION])
    · simp [onCookStep, hr, hb, hfp, hf]
      try (split_ifs <;> simp_all [BLEND_DURATION])

theorem loads_sub (st : GState) (inp : TickInput)
    (h : (onCookStep st inp).2.loads ≠ []) :
    st.blending = false ∧ EARLY_THRESHOLD < inp.fraction ∧
    (st.preloaded = false ∨ inp.fraction < st.prevFraction - JITTER_TOL) ∧
    (st.waitingForSceneChange = false ∨ inp.fingerprint ≠ st.oldSceneFingerprint) := by
  by_cases hb : st.blending = true
  · exfalso; apply h; simp [onCookStep, hb]
    try (split_ifs <;> rfl)
  · simp only [Bool.not_eq_true] at hb
    by_cases hf : EARLY_THRESHOLD < inp.fraction
    · by_cases hp : st.preloaded = true
      · by_cases hr : inp.fraction < st.prevFraction - JITTER_TOL
        · by_cases hw : st.waitingForSceneChange = true
          · by_cases hfp : inp.fingerprint = st.oldSceneFingerprint
            · exfalso; apply h; simp [onCookStep, hb, hp, hr, hw, hfp]
              try (split_ifs <;> rfl)
            · exact ⟨hb, hf, Or.inr hr, Or.inr hfp⟩
          · simp only [Bool.not_eq_true] at hw
            exact ⟨hb, hf, Or.inr hr, Or.inl hw⟩
        · exfalso; apply h; simp [onCookStep, hb, hp, hr]
          try (split_ifs <;> rfl)
      · simp only [Bool.not_eq_true] at hp
        by_cases hw : st.waitingForSceneChange = true
        · by_cases hfp : inp.fingerprint = st.oldSceneFingerprint
          · exfalso; apply h; simp [onCookStep, hw, hfp]
            try (split_ifs <;> rfl)
          · exact ⟨hb, hf, Or.inl hp, Or.inr hfp⟩
        · simp only [Bool.not_eq_true] at hw
          exact ⟨hb, hf, Or.inl hp, Or.inl hw⟩
    · exfalso; apply h; simp [onCookStep, hf]
      try (split_ifs <;> rfl)

theorem loads_len (st : GState) (inp : TickInput) :
    (onCookStep st inp).2.loads.length ≤ 1 := by
  simp [onCookStep]
  split_ifs <;> simp

theorem reset_keep (st : GState) (inp : TickInput)
    (hr : ¬(inp.fraction < st.prevFraction - JITTER_TOL)) (hb : st.blending = false)
    (hp : st.preloaded = true) :
    (onCookStep st inp).1.preloaded = true := by
  simp [onCookStep, hr, hb, hp]
  try (split_ifs <;> simp_all [BLEND_DURATION] <;> try linarith)

theorem reset_clears_or (st : GState) (inp : TickInput)
    (hr : inp.fraction < st.prevFraction - JITTER_TOL) (hb : st.blending = false) :
    (onCookStep st inp).1.preloaded = false ∨ (onCookStep st inp).2.loads ≠ [] := by
  by_cases hw : st.waitingForSceneChange = true
  · by_cases hfp : inp.fingerprint = st.oldSceneFingerprint
    · left; simp [onCookStep, hr, hb, hw, hfp]
      try (split_ifs <;> simp_all [BLEND_DURATION])
    · by_cases hf : EARLY_THRESHOLD < inp.fraction
      · right; simp [onCookStep, hr, hb, hw, hfp, hf]
        try (split_ifs <;> simp_all [BLEND_DURATION])
      · left; simp [onCookStep, hr, hb, hf]
        try (split_ifs <;> simp_all [BLEND_DURATION])
  · simp only [Bool.not_eq_true] at hw
    by_cases hf : EARLY_THRESHOLD < inp.fraction
    · right; simp [onCookStep, hr, hb, hw, hf]
      try (split_ifs <;> simp_all [BLEND_DURATION])
    · left; simp [onCookStep, hr, hb, hf]
      try (split_ifs <;> simp_all [BLEND_DURATION])

theorem reset_clears_early (st : GState) (inp : TickInput)
    (hr : inp.fraction < st.prevFraction - JITTER_TOL) (hb : st.blending = false)
    (hf : inp.fraction ≤ EARLY_THRESHOLD) :
    (onCookStep st inp).1.preloaded = false := by
  simp [onCookStep, hr, hb, not_lt.mpr hf]
  try (split_ifs <;> simp_all [BLEND_DURATION])

theorem blending_ignores_prev (st : GState) (inp : TickInput) (p q : ℚ)
    (hb : st.blending = true) :
    onCookStep { st with prevFraction := p } inp
      = onCookStep { st with prevFraction := q } inp := by
  simp [onCookStep, hb]

theorem blending_continues (st : GState) (inp : TickInput)
    (hb : st.blending = true) (he : inp.now - st.blendStartTime < BLEND_DURATION) :
    (onCookStep st inp).1.preloaded = st.preloaded ∧
    (onCookStep st inp).1.blending = true := by
  simp [onCookStep, hb, not_le.mpr he]

theorem gate_iff (st : GState) (inp : TickInput) (hw : st.waitingForSceneChange = true) :
    ((onCookStep st inp).2.regenFired = true ↔ inp.fingerprint ≠ st.oldSceneFingerprint) := by
  simp [onCookStep, hw]
  try (split_ifs <;> simp)

theorem gate_clears (st : GState) (inp : TickInput) (hw : st.waitingForSceneChange = true)
    (hb : st.blending = false) (hfp : inp.fingerprint ≠ st.oldSceneFingerprint) :
    (onCookStep st inp).1.waitingForSceneChange = false := by
  simp [onCookStep, hw, hb, hfp]
  try (split_ifs <;> simp_all [BLEND_DURATION] <;> try linarith)

theorem gate_stays (st : GState) (inp : TickInput) (hw : st.waitingForSceneChange = true)
    (hfp : inp.fingerprint = st.oldSceneFingerprint) :
    (onCookStep st inp).1.waitingForSceneChange = true := by
  simp [onCookStep, hw, hfp]
  try (split_ifs <;> simp)

theorem step_fp_eq (st : GState) (inp : TickInput)
    (hfp : inp.fingerprint = st.oldSceneFingerprint) :
    (onCookStep st inp).2.regenFired = false ∧
    (onCookStep st inp).1.oldSceneFingerprint = st.oldSceneFingerprint := by
  simp [onCookStep, hfp]
  try (split_ifs <;> simp)

theorem regen_needs_waiting (st : GState) (inp : TickInput)
    (h : (onCookStep st inp).2.regenFired = true) : st.waitingForSceneChange = true := by
  by_cases hw : st.waitingForSceneChange = true
  · exact hw
  · exfalso; simp only [Bool.not_eq_true] at hw
    revert h; simp [onCookStep, hw]
    try (split_ifs <;> simp)

theorem waiting_after (st : GState) (inp : TickInput)
    (hns : (onCookStep st inp).2.feedbackReset = false)
    (h : (onCookStep st inp).1.waitingForSceneChange = true) :
    st.waitingForSceneChange = true ∧ (onCookStep st inp).2.regenFired = false := by
  by_cases hw : st.waitingForSceneChange = true
  · refine ⟨hw, ?_⟩
    by_cases hfp : inp.fingerprint = st.oldSceneFingerprint
    · simp [onCookStep, hfp]; try (split_ifs <;> simp)
    · exfalso
      revert h hns
      simp [onCookStep, hw, hfp]
      try (split_ifs <;> simp)
  · exfalso; simp only [Bool.not_eq_true] at hw
    revert h hns
    simp [onCookStep, hw]
    try (split_ifs <;> simp)

theorem countRegen_cons (o : TickOutput) (os : List TickOutput) :
    countRegen (o :: os) = (if o.regenFired then 1 else 0) + countRegen os := by
  simp [countRegen, List.filter]
  split <;> simp_all <;> omega

theorem run_no_change_no_fire (st : GState) (inps : List TickInput)
    (h : ∀ inp ∈ inps, inp.fingerprint = st.oldSceneFingerprint) :
    ∀ o ∈ (runTicks st inps).2, o.regenFired = false := by
  induction inps generalizing st with
  | nil => simp [runTicks]
  | cons a rest ih =>
    intro o ho
    have ha := h a (List.mem_cons_self a rest)
    have h1 := step_fp_eq st a ha
    simp only [runTicks, List.mem_cons] at ho
    rcases ho with ho | ho
    · rw [ho]; exact h1.1
    · exact ih (onCookStep st a).1
        (fun i hi => by rw [h1.2]; exact h i (List.mem_cons_of_mem _ hi)) o ho

theorem run_fire_bound (st : GState) (inps : List TickInput)
    (h : ∀ o ∈ (runTicks st inps).2, o.feedbackReset = false) :
    countRegen (runTicks st inps).2 ≤ if st.waitingForSceneChange then 1 else 0 := by
  induction inps generalizing st with
  | nil => simp [runTicks, countRegen]
  | cons a rest ih =>
    have hhead : (onCookStep st a).2.feedbackReset = false := by
      apply h; simp [runTicks]
    have htail : ∀ o ∈ (runTicks (onCookStep st a).1 rest).2, o.feedbackReset = false := by
      intro o ho; apply h; simp [runTicks]; right; exact ho
    have hrw : (runTicks st (a :: rest)).2
        = (onCookStep st a).2 :: (runTicks (onCookStep st a).1 rest).2 := by
      simp [runTicks]
    rw [hrw, countRegen_cons]
    have hb := ih (onCookStep st a).1 htail
    by_cases hfire : (onCookStep st a).2.regenFired = true
    · have hw0 := regen_needs_waiting st a hfire
      have hw1 : (onCookStep st a).1.waitingForSceneChange = false := by
        by_cases hw1a : (onCookStep st a).1.waitingForSceneChange = true
        · have h2 := (waiting_after st a hhead hw1a).2
          rw [hfire] at h2; exact absurd h2 (by simp)
        · simpa using hw1a
      rw [hw1] at hb
      simp only [hfire, hw0] at *
      simp at hb ⊢
      omega
    · have hfire2 : (onCookStep st a).2.regenFired = false := by simpa using hfire
      by_cases hw0 : st.waitingForSceneChange = true
      · by_cases hw1 : (onCookStep st a).1.waitingForSceneChange = true
        · rw [hw1] at hb; simp [hfire2, hw0] at hb ⊢; omega
        · have hw1a : (onCookStep st a).1.waitingForSceneChange = false := by simpa using hw1
          rw [hw1a] at hb; simp [hfire2, hw0] at hb ⊢; omega
      · have hw0a : st.waitingForSceneChange = false := by simpa using hw0
        have hw1 : (onCookStep st a).1.waitingForSceneChange = false := by
          by_cases hw1a : (onCookStep st a).1.waitingForSceneChange = true
          · exact absurd (waiting_after st a hhead hw1a).1 (by simp [hw0a])
          · simpa using hw1a
        rw [hw1] at hb
        simp [hfire2, hw0a] at hb ⊢
        omega

theorem small_catalog_full (env : Env) (storage : Option GState) (inp : TickInput)
    (shuffled : List String) (vFov : ℚ) (h : env.sceneFiles.length < 2) :
    onCook env storage inp shuffled vFov = (storage, idleOutput) := by
  simp [onCook, h]

theorem init_fields (shuffled : List String) (bounds : Bounds) (vFov : ℚ)
    (h : 2 ≤ shuffled.length) :
    (initStorage shuffled bounds vFov).1.activeInput = 0 ∧
    (initStorage shuffled bounds vFov).1.currentSceneIdx = 0 ∧
    (initStorage shuffled bounds vFov).1.blending = false ∧
    (initStorage shuffled bounds vFov).1.preloaded = true ∧
    (initStorage shuffled bounds vFov).2 =
      [(0, sceneFileAt shuffled 0), (1, sceneFileAt shuffled 1)] := by
  have h1 : (1 : ℤ) % (shuffled.length : ℤ) = 1 :=
    Int.emod_eq_of_lt (by norm_num) (by exact_mod_cast h)
  simp [initStorage, h1]

theorem init_tick_loads (env : Env) (storage : Option GState) (inp : TickInput)
    (shuffled : List String) (vFov : ℚ)
    (hmis : versionMismatch storage = true)
    (hn : ¬(env.sceneFiles.length < 2))
    (hfr : 0 ≤ inp.fraction) :
    (onCook env storage inp shuffled vFov).2.loads =
      (initStorage shuffled env.bounds vFov).2 := by
  have hstep : (onCookStep (initStorage shuffled env.bounds vFov).1 inp).2.loads = [] := by
    have hr : ¬(inp.fraction < (0:ℚ) - JITTER_TOL) := by
      simp only [JITTER_TOL]; intro hc; linarith
    simp [onCookStep, initStorage, hr]
    try (split_ifs <;> simp_all [BLEND_DURATION])
  match storage with
  | none =>
    simp [onCook, hn, onCookInit, hstep]
  | some st =>
    have hv : ¬(st.version = STORAGE_VERSION) := by
      by_contra hc
      simp [versionMismatch, hc] at hmis
    simp [onCook, hn, hv, onCookInit, hstep]

theorem preload_hold (st : GState) (inp : TickInput)
    (hp : st.preloaded = true)
    (hr : ¬(inp.fraction < st.prevFraction - JITTER_TOL))
    (hns : ¬(st.blending = true ∧ BLEND_DURATION ≤ inp.now - st.blendStartTime)) :
    (onCookStep st inp).2.loads = [] ∧ (onCookStep st inp).1.preloaded = true := by
  by_cases hb : st.blending = true
  · have he : ¬(BLEND_DURATION ≤ inp.now - st.blendStartTime) := fun hc => hns ⟨hb, hc⟩
    simp [onCookStep, hb, hp, he]
  · have hb2 : st.blending = false := by simpa using hb
    simp [onCookStep, hb2, hp, hr]
    try (split_ifs <;> simp_all [BLEND_DURATION] <;> try linarith)

theorem switch_not_blending (st : GState) (inp : TickInput) (hb : st.blending = false) :
    (onCookStep st inp).2.switchIndex = (st.activeInput : ℚ) := by
  simp [onCookStep, hb]
  try (split_ifs <;> simp_all [BLEND_DURATION, smoothstep_zero] <;> try linarith)

theorem switch_blend_formula (st : GState) (inp : TickInput) (hb : st.blending = true)
    (he : inp.now - st.blendStartTime < BLEND_DURATION) :
    (onCookStep st inp).2.switchIndex =
      (st.activeInput : ℚ) + ((1 - st.activeInput - st.activeInput : ℤ) : ℚ) *
        smoothstep ((inp.now - st.blendStartTime) / BLEND_DURATION) ∧
    (onCookStep st inp).2.cameraSphere =
      lerpSphere st.activeSphere st.targetSphere
        (smoothstep ((inp.now - st.blendStartTime) / BLEND_DURATION)) := by
  simp [onCookStep, hb, not_le.mpr he]
  try push_cast
  try ring

theorem switch_range (st : GState) (inp : TickInput)
    (ha : st.activeInput = 0 ∨ st.activeInput = 1) :
    0 ≤ (onCookStep st inp).2.switchIndex ∧ (onCookStep st inp).2.switchIndex < 2 := by
  by_cases hb : st.blending = true
  · by_cases he : BLEND_DURATION ≤ inp.now - st.blendStartTime
    · rcases ha with h|h <;> simp [onCookStep, hb, he, h] <;> norm_num
    · have hs0 := smoothstep_nonneg ((inp.now - st.blendStartTime) / BLEND_DURATION)
      have hs1 := smoothstep_le_one ((inp.now - st.blendStartTime) / BLEND_DURATION)
      rcases ha with h|h <;>
        simp [onCookStep, hb, he, h] <;> constructor <;> try linarith
  · have hb2 : st.blending = false := by simpa using hb
    rw [switch_not_blending st inp hb2]
    rcases ha with h|h <;> rw [h] <;> norm_num

theorem switch_floor_frac (st : GState) (inp : TickInput) (hb : st.blending = true)
    (he : inp.now - st.blendStartTime < BLEND_DURATION) :
    (st.activeInput = 0 →
      ⌊(onCookStep st inp).2.switchIndex⌋ = st.activeInput ∧
      Int.fract ((onCookStep st inp).2.switchIndex)
        = smoothstep ((inp.now - st.blendStartTime) / BLEND_DURATION)) ∧
    (st.activeInput = 1 →
      (onCookStep st inp).2.switchIndex
        = 1 - smoothstep ((inp.now - st.blendStartTime) / BLEND_DURATION)) := by
  have hf := (switch_blend_formula st inp hb he).1
  have hlt : (inp.now - st.blendStartTime) / BLEND_DURATION < 1 := by
    rw [div_lt_one (by norm_num [BLEND_DURATION])]
    linarith [he]
  have hs0 := smoothstep_nonneg ((inp.now - st.blendStartTime) / BLEND_DURATION)
  have hs1 := smoothstep_lt_one ((inp.now - st.blendStartTime) / BLEND_DURATION) hlt
  constructor
  · intro h0
    rw [hf, h0]
    norm_num
    exact ⟨hs0, hs1⟩
  · intro h1
    rw [hf, h1]
    push_cast
    ring

/-! ### Helper lemmas on the real-valued blend curve and camera framing -/

theorem smoothstepR_eq (t : ℝ) :
    smoothstepR t = max 0 (min 1 t) * max 0 (min 1 t) * (3 - 2 * max 0 (min 1 t)) := rfl

theorem smoothstepR_continuous : Continuous smoothstepR := by
  have hmin : Continuous fun t : ℝ => min 1 t := continuous_const.min continuous_id
  have hc : Continuous fun t : ℝ => max 0 (min 1 t) := continuous_const.max hmin
  exact (hc.mul hc).mul (continuous_const.sub (continuous_const.mul hc))

theorem smoothstepR_mono : Monotone smoothstepR := by
  intro a b hab
  rw [smoothstepR_eq, smoothstepR_eq]
  have h0a : (0:ℝ) ≤ max 0 (min 1 a) := le_max_left _ _
  have h1a : max 0 (min 1 a) ≤ 1 := max_le zero_le_one (min_le_left _ _)
  have h0b : (0:ℝ) ≤ max 0 (min 1 b) := le_max_left _ _
  have h1b : max 0 (min 1 b) ≤ 1 := max_le zero_le_one (min_le_left _ _)
  have hab2 : max 0 (min 1 a) ≤ max 0 (min 1 b) :=
    max_le_max le_rfl (min_le_min le_rfl hab)
  nlinarith [mul_nonneg (mul_nonneg (sub_nonneg.mpr hab2) h0a) (sub_nonneg.mpr h1b),
    mul_nonneg (mul_nonneg (sub_nonneg.mpr hab2) h0b) (sub_nonneg.mpr h1a),
    mul_nonneg (mul_nonneg (sub_nonneg.mpr hab2) h0a) (sub_nonneg.mpr h1a),
    mul_nonneg (mul_nonneg (sub_nonneg.mpr hab2) h0b) (sub_nonneg.mpr h1b)]

theorem smoothstepR_of_ge_one (t : ℝ) (h : 1 ≤ t) : smoothstepR t = 1 := by
  rw [smoothstepR_eq, min_eq_left h, max_eq_right zero_le_one]; ring

theorem smoothstepR_zero : smoothstepR 0 = 0 := by
  rw [smoothstepR_eq, min_eq_right zero_le_one, max_self]; ring

theorem smoothstep_cast (t : ℚ) : ((smoothstep t : ℚ) : ℝ) = smoothstepR (t : ℝ) := by
  rw [smoothstep_eq, smoothstepR_eq]
  push_cast
  ring

theorem blendValue_continuous (a : ℝ) : Continuous (blendValue a) :=
  continuous_const.add (continuous_const.mul
    (smoothstepR_continuous.comp (continuous_id.div_const _)))

theorem blendValue_zero_mono : Monotone (blendValue 0) := by
  intro x y h
  have hB : (0:ℝ) < ((BLEND_DURATION : ℚ) : ℝ) := by norm_num [BLEND_DURATION]
  have hs := smoothstepR_mono ((div_le_div_right hB).mpr h)
  simp only [blendValue]
  linarith

theorem blendValue_one_anti : Antitone (blendValue 1) := by
  intro x y h
  have hB : (0:ℝ) < ((BLEND_DURATION : ℚ) : ℝ) := by norm_num [BLEND_DURATION]
  have hs := smoothstepR_mono ((div_le_div_right hB).mpr h)
  simp only [blendValue]
  linarith

theorem blendValue_endpoints :
    blendValue 0 0 = 0 ∧ blendValue 0 ((BLEND_DURATION : ℚ) : ℝ) = 1 ∧
    blendValue 1 0 = 1 ∧ blendValue 1 ((BLEND_DURATION : ℚ) : ℝ) = 0 := by
  have hB : ((BLEND_DURATION : ℚ) : ℝ) ≠ 0 := by norm_num [BLEND_DURATION]
  have h1 := smoothstepR_of_ge_one 1 le_rfl
  refine ⟨?_, ?_, ?_, ?_⟩ <;>
    simp [blendValue, zero_div, smoothstepR_zero, div_self hB, h1] <;> ring

theorem switch_real (st : GState) (inp : TickInput) (hb : st.blending = true) :
    (((onCookStep st inp).2.switchIndex : ℚ) : ℝ)
      = blendValue ((st.activeInput : ℤ) : ℝ) (((inp.now - st.blendStartTime : ℚ) : ℝ)) := by
  by_cases he : BLEND_DURATION ≤ inp.now - st.blendStartTime
  · have hBpos : (0:ℝ) < ((BLEND_DURATION : ℚ) : ℝ) := by norm_num [BLEND_DURATION]
    have h1 : (1:ℝ) ≤ ((inp.now - st.blendStartTime : ℚ) : ℝ) / ((BLEND_DURATION : ℚ) : ℝ) := by
      rw [le_div_iff hBpos, one_mul]
      exact_mod_cast he
    have hs : (onCookStep st inp).2.switchIndex = ((1 - st.activeInput : ℤ) : ℚ) := by
      simp [onCookStep, hb, he]
    rw [hs, blendValue, smoothstepR_of_ge_one _ h1]
    push_cast
    ring
  · have hs := (switch_blend_formula st inp hb (not_le.mp he)).1
    rw [hs, blendValue]
    push_cast [smoothstep_cast]
    ring

theorem tan13_bounds :
    (0.23071 : ℝ) < Real.tan (radians 13) ∧ Real.tan (radians 13) < 0.23107 := by
  have hpi1 := Real.pi_gt_d6
  have hpi2 := Real.pi_lt_d6
  have hxe : radians 13 = 13 * (Real.pi / 180) := rfl
  set x := radians 13 with hx
  have hl : (0.2268927 : ℝ) < x := by rw [hxe]; nlinarith
  have hu : x < 0.2268929 := by rw [hxe]; nlinarith
  have hx0 : (0:ℝ) < x := by linarith
  have hx1 : |x| ≤ 1 := by rw [abs_of_pos hx0]; linarith
  have hsin := Real.sin_bound hx1
  have hcos := Real.cos_bound hx1
  rw [abs_of_pos hx0] at hsin hcos
  rw [abs_le] at hsin hcos
  have h2u : x^2 < 0.05148045 := by nlinarith
  have h2l : (0.0514802 : ℝ) < x^2 := by nlinarith
  have h3u : x^3 < 0.0116806 := by
    nlinarith [mul_pos (sub_pos.mpr h2u) hx0,
      mul_pos (sub_pos.mpr hu) (show (0:ℝ) < 0.05148045 by norm_num)]
  have h3l : (0.0116804 : ℝ) < x^3 := by
    nlinarith [mul_pos (sub_pos.mpr h2l) hx0,
      mul_pos (sub_pos.mpr hl) (show (0:ℝ) < 0.0514802 by norm_num)]
  have h4u : x^4 < 0.0026503 := by
    nlinarith [mul_pos (sub_pos.mpr h3u) hx0,
      mul_pos (sub_pos.mpr hu) (show (0:ℝ) < 0.0116806 by norm_num)]
  have h4l : (0:ℝ) ≤ x^4 := by positivity
  have hsl : (0.224807 : ℝ) < Real.sin x := by linarith [hsin.1]
  have hsu : Real.sin x < 0.225085 := by linarith [hsin.2]
  have hcl : (0.974121 : ℝ) < Real.cos x := by linarith [hcos.1]
  have hcu : Real.cos x < 0.974398 := by linarith [hcos.2]
  have hcpos : (0:ℝ) < Real.cos x := by linarith
  rw [Real.tan_eq_sin_div_cos]
  constructor
  · rw [lt_div_iff hcpos]; linarith
  · rw [div_lt_iff hcpos]; linarith

/-! ### Claim theorems -/

/-- C1: For every tick in the Blending state with elapsed = now - blendStartTime
at least blendDuration (5 s), the blend-completion transition runs: the active
slot flips, the scene index advances modulo the catalog size, the preload flag
clears, the blend ends, the active sphere becomes the target sphere, the
pre-swap fingerprint is captured and the gate enters AwaitingChange, and the
published blend control equals the new active slot as a number. -/
theorem C1_blend_completion (st : GState) (inp : TickInput)
    (hb : st.blending = true) (he : BLEND_DURATION ≤ inp.now - st.blendStartTime) :
    (onCookStep st inp).1.activeInput = 1 - st.activeInput ∧
    (onCookStep st inp).1.currentSceneIdx = (st.currentSceneIdx + 1) % (st.sceneFiles.length : ℤ) ∧
    (onCookStep st inp).1.preloaded = false ∧
    (onCookStep st inp).1.blending = false ∧
    (onCookStep st inp).1.activeSphere = st.targetSphere ∧
    (onCookStep st inp).1.oldSceneFingerprint = inp.fingerprint ∧
    (onCookStep st inp).1.waitingForSceneChange = true ∧
    (onCookStep st inp).2.switchIndex = ((1 - st.activeInput : ℤ) : ℚ) := by
  simp [onCookStep, hb, he]

/-- C1 witness: the completion transition evaluated on a concrete blending
state 10 seconds into the blend. -/
theorem C1_blend_completion_witness :
    (onCookStep stC1w inpC1w).1.activeInput = 1 - stC1w.activeInput ∧
    (onCookStep stC1w inpC1w).1.currentSceneIdx
      = (stC1w.currentSceneIdx + 1) % (stC1w.sceneFiles.length : ℤ) ∧
    (onCookStep stC1w inpC1w).1.preloaded = false ∧
    (onCookStep stC1w inpC1w).1.blending = false ∧
    (onCookStep stC1w inpC1w).1.activeSphere = stC1w.targetSphere ∧
    (onCookStep stC1w inpC1w).1.oldSceneFingerprint = inpC1w.fingerprint ∧
    (onCookStep stC1w inpC1w).1.waitingForSceneChange = true ∧
    (onCookStep stC1w inpC1w).2.switchIndex = ((1 - stC1w.activeInput : ℤ) : ℚ) :=
  C1_blend_completion stC1w inpC1w rfl
    (by norm_num [stC1w, baseState, inpC1w, BLEND_DURATION])

/-- C2 counterexample: at a quarter of the blend the published camera sphere is
NOT the linear interpolation at the raw clamped time fraction — the code feeds
the smoothstepped fraction to `_lerpSphere`, so the radius is 5/32, not 1/4. -/
theorem C2_sphere_lerp_counterexample :
    stC2.blending = true ∧
    (onCookStep stC2 inpC2).2.cameraSphere ≠
      lerpSphere stC2.activeSphere stC2.targetSphere
        (max 0 (min 1 ((inpC2.now - stC2.blendStartTime) / BLEND_DURATION))) := by
  refine ⟨rfl, ?_⟩
  intro h
  have h2 := congrArg Sphere.radius h
  norm_num [onCookStep, stC2, baseState, inpC2, lerpSphere, smoothstep_eq, BLEND_DURATION,
    JITTER_TOL, MID_CYCLE, BLEND_TRIGGER, EARLY_THRESHOLD, max_def, min_def] at h2

/-- C2 amended: during a blend the camera sphere is the linear interpolation of
center and radius between activeSphere and targetSphere evaluated at the blend
progress, where the progress is the smoothstepped clamped fraction — the same
eased value used for the blend control (the interpolation is linear in the
parameter, but the parameter itself is eased, not the raw time fraction). -/
theorem C2_sphere_lerp_amended (st : GState) (inp : TickInput) (hb : st.blending = true)
    (he : inp.now - st.blendStartTime < BLEND_DURATION) :
    (onCookStep st inp).2.cameraSphere =
      lerpSphere st.activeSphere st.targetSphere
        (smoothstep ((inp.now - st.blendStartTime) / BLEND_DURATION)) ∧
    (onCookStep st inp).2.switchIndex =
      (st.activeInput : ℚ) + ((1 - st.activeInput - st.activeInput : ℤ) : ℚ) *
        smoothstep ((inp.now - st.blendStartTime) / BLEND_DURATION) :=
  ⟨(switch_blend_formula st inp hb he).2, (switch_blend_formula st inp hb he).1⟩

/-- C2 witness: the amended statement evaluated on the concrete C2 state. -/
theorem C2_sphere_lerp_amended_witness :
    (onCookStep stC2 inpC2).2.cameraSphere =
      lerpSphere stC2.activeSphere stC2.targetSphere
        (smoothstep ((inpC2.now - stC2.blendStartTime) / BLEND_DURATION)) ∧
    (onCookStep stC2 inpC2).2.switchIndex =
      (stC2.activeInput : ℚ) + ((1 - stC2.activeInput - stC2.activeInput : ℤ) : ℚ) *
        smoothstep ((inpC2.now - stC2.blendStartTime) / BLEND_DURATION) :=
  C2_sphere_lerp_amended stC2 inpC2 rfl
    (by norm_num [stC2, baseState, inpC2, BLEND_DURATION])

/-- C3: a load command is issued on a tick exactly when the preload
preconditions hold at the decision point of line 249: not blending, the
cyclePosition above the 0.05 early threshold, the preload flag clear there
(clear at tick entry, or cleared by this tick's timer reset), and no
consistency wait pending there (none at entry, or cleared by this tick's
fingerprint change).  When they hold, exactly one load is issued: the scene at
(currentSceneIdx + 1) mod catalogSize goes to the inactive slot, the preload
flag is set (so no further preload fires until it is cleared), and that
scene's bounding sphere is recorded as the pending target sphere.  When any of
them fails, no load is issued (the converse direction), and in all cases at
most one load command is issued per tick. -/
theorem C3_preload_gate :
    (∀ st inp, st.blending = false →
      (st.preloaded = false ∨ inp.fraction < st.prevFraction - JITTER_TOL) →
      (st.waitingForSceneChange = false ∨ inp.fingerprint ≠ st.oldSceneFingerprint) →
      EARLY_THRESHOLD < inp.fraction →
      (onCookStep st inp).2.loads =
        [(1 - st.activeInput,
          sceneFileAt st.sceneFiles ((st.currentSceneIdx + 1) % (st.sceneFiles.length : ℤ)))] ∧
      (onCookStep st inp).1.preloaded = true ∧
      (onCookStep st inp).1.targetSphere =
        getSphere st.bounds
          (sceneFileAt st.sceneFiles ((st.currentSceneIdx + 1) % (st.sceneFiles.length : ℤ)))) ∧
    (∀ st inp, (onCookStep st inp).2.loads ≠ [] →
      st.blending = false ∧ EARLY_THRESHOLD < inp.fraction ∧
      (st.preloaded = false ∨ inp.fraction < st.prevFraction - JITTER_TOL) ∧
      (st.waitingForSceneChange = false ∨ inp.fingerprint ≠ st.oldSceneFingerprint)) ∧
    (∀ st inp, (onCookStep st inp).2.loads.length ≤ 1) :=
  ⟨preload_fires, loads_sub, loads_len⟩

/-- C3 witness: a concrete tick entering with the preload flag clear, and a
concrete tick entering with the flag set but reset this tick, each issue
exactly the one expected load. -/
theorem C3_preload_gate_witness :
    ((onCookStep stC3w inpC3w).2.loads =
      [(1 - stC3w.activeInput,
        sceneFileAt stC3w.sceneFiles
          ((stC3w.currentSceneIdx + 1) % (stC3w.sceneFiles.length : ℤ)))] ∧
    (onCookStep stC3w inpC3w).1.preloaded = true ∧
    (onCookStep stC3w inpC3w).1.targetSphere =
      getSphere stC3w.bounds
        (sceneFileAt stC3w.sceneFiles
          ((stC3w.currentSceneIdx + 1) % (stC3w.sceneFiles.length : ℤ)))) ∧
    ((onCookStep stC3r inpC3r).2.loads =
      [(1 - stC3r.activeInput,
        sceneFileAt stC3r.sceneFiles
          ((stC3r.currentSceneIdx + 1) % (stC3r.sceneFiles.length : ℤ)))] ∧
    (onCookStep stC3r inpC3r).1.preloaded = true ∧
    (onCookStep stC3r inpC3r).1.targetSphere =
      getSphere stC3r.bounds
        (sceneFileAt stC3r.sceneFiles
          ((stC3r.currentSceneIdx + 1) % (stC3r.sceneFiles.length : ℤ)))) :=
  ⟨C3_preload_gate.1 stC3w inpC3w rfl (Or.inl rfl) (Or.inl rfl)
      (by norm_num [stC3w, baseState, inpC3w, EARLY_THRESHOLD]),
   C3_preload_gate.1 stC3r inpC3r rfl
      (Or.inr (by norm_num [stC3r, baseState, inpC3r, JITTER_TOL])) (Or.inl rfl)
      (by norm_num [inpC3r, EARLY_THRESHOLD])⟩

/-- C4: a cycle reset is detected exactly when cyclePosition drops more than
the 0.1 jitter tolerance below the previous value: without such a drop (and
with no blend running) the preload flag is kept; a detected reset while not
blending clears the flag (it ends the tick cleared, or already consumed by a
fresh preload issued the same tick, and ends cleared whenever the position is
at most the 0.05 early threshold); while blending the whole tick is
insensitive to prevFraction and the in-progress blend and preload flag are
left unchanged. -/
theorem C4_cycle_reset :
    (∀ st inp, ¬(inp.fraction < st.prevFraction - JITTER_TOL) → st.blending = false →
      st.preloaded = true → (onCookStep st inp).1.preloaded = true) ∧
    (∀ st inp, inp.fraction < st.prevFraction - JITTER_TOL → st.blending = false →
      (onCookStep st inp).1.preloaded = false ∨ (onCookStep st inp).2.loads ≠ []) ∧
    (∀ st inp, inp.fraction < st.prevFraction - JITTER_TOL → st.blending = false →
      inp.fraction ≤ EARLY_THRESHOLD → (onCookStep st inp).1.preloaded = false) ∧
    (∀ (st : GState) (inp : TickInput) (p q : ℚ), st.blending = true →
      onCookStep { st with prevFraction := p } inp
        = onCookStep { st with prevFraction := q } inp) ∧
    (∀ st inp, st.blending = true → inp.now - st.blendStartTime < BLEND_DURATION →
      (onCookStep st inp).1.preloaded = st.preloaded ∧
      (onCookStep st inp).1.blending = true) :=
  ⟨reset_keep, reset_clears_or, reset_clears_early, blending_ignores_prev, blending_continues⟩

/-- C4 witness: a concrete wrap from 0.9 to 0 with no blend running clears the
preload flag. -/
theorem C4_cycle_reset_witness :
    (onCookStep stC4w inpC4w).1.preloaded = false :=
  C4_cycle_reset.2.2.1 stC4w inpC4w
    (by norm_num [stC4w, baseState, inpC4w, JITTER_TOL]) rfl
    (by norm_num [inpC4w, EARLY_THRESHOLD])

/-- C5: while the gate is AwaitingChange the regeneration fires on a tick if
and only if that tick's fingerprint differs from the stored pre-swap one;
firing clears the wait (when no blend is running) and an unchanged fingerprint
leaves it waiting; on any run whose fingerprints all equal the stored one the
regeneration never fires (no timeout), and on any run without a blend
completion it fires at most once. -/
theorem C5_consistency_gate :
    (∀ st inp, st.waitingForSceneChange = true →
      ((onCookStep st inp).2.regenFired = true ↔ inp.fingerprint ≠ st.oldSceneFingerprint)) ∧
    (∀ st inp, st.waitingForSceneChange = true → st.blending = false →
      inp.fingerprint ≠ st.oldSceneFingerprint →
      (onCookStep st inp).1.waitingForSceneChange = false) ∧
    (∀ st inp, st.waitingForSceneChange = true → inp.fingerprint = st.oldSceneFingerprint →
      (onCookStep st inp).1.waitingForSceneChange = true) ∧
    (∀ st inps, (∀ inp ∈ inps, inp.fingerprint = st.oldSceneFingerprint) →
      ∀ o ∈ (runTicks st inps).2, o.regenFired = false) ∧
    (∀ st inps, (∀ o ∈ (runTicks st inps).2, o.feedbackReset = false) →
      countRegen (runTicks st inps).2 ≤ 1) := by
  refine ⟨gate_iff, gate_clears, gate_stays, run_no_change_no_fire, ?_⟩
  intro st inps h
  refine le_trans (run_fire_bound st inps h) ?_
  split_ifs <;> omega

/-- C5 witness: with the gate waiting and a changed fingerprint, the
regeneration fires on the concrete state. -/
theorem C5_consistency_gate_witness :
    (onCookStep stC5w inpC5w).2.regenFired = true :=
  (C5_consistency_gate.1 stC5w inpC5w rfl).mpr
    (by simp [stC5w, baseState, inpC5w])

/-- C6 counterexample: mid-blend away from slot 1 the published scalar is 1/2,
whose integer part is 0, not the active (displayed) slot id 1 — so the claimed
integer-part/slot-id encoding fails. -/
theorem C6_blend_scalar_counterexample :
    stC6.activeInput = 1 ∧ stC6.blending = true ∧
    (onCookStep stC6 inpC6).2.switchIndex = 1/2 ∧
    ⌊(onCookStep stC6 inpC6).2.switchIndex⌋ = 0 := by
  refine ⟨rfl, rfl, ?_, ?_⟩ <;>
    norm_num [onCookStep, stC6, baseState, inpC6, smoothstep_eq, BLEND_DURATION,
      JITTER_TOL, MID_CYCLE, BLEND_TRIGGER, EARLY_THRESHOLD, max_def, min_def]

/-- C6 amended: the published blend-control scalar always lies in [0,2) (for
the reachable slot ids 0 and 1); outside a transition it equals the active
slot id exactly; during a transition it equals
activeSlot + (inactiveSlot - activeSlot) * progress with the smoothstepped
progress, so for active slot 0 its integer part is the slot id and its
fractional part is the progress, while for active slot 1 it equals
1 - progress (its integer part is 0 once progress is positive, not the slot
id). -/
theorem C6_blend_scalar_amended :
    (∀ st inp, st.activeInput = 0 ∨ st.activeInput = 1 →
      0 ≤ (onCookStep st inp).2.switchIndex ∧ (onCookStep st inp).2.switchIndex < 2) ∧
    (∀ st inp, st.blending = false →
      (onCookStep st inp).2.switchIndex = (st.activeInput : ℚ)) ∧
    (∀ st inp, st.blending = true → inp.now - st.blendStartTime < BLEND_DURATION →
      (st.activeInput = 0 →
        ⌊(onCookStep st inp).2.switchIndex⌋ = st.activeInput ∧
        Int.fract ((onCookStep st inp).2.switchIndex)
          = smoothstep ((inp.now - st.blendStartTime) / BLEND_DURATION)) ∧
      (st.activeInput = 1 →
        (onCookStep st inp).2.switchIndex
          = 1 - smoothstep ((inp.now - st.blendStartTime) / BLEND_DURATION))) :=
  ⟨switch_range, switch_not_blending, switch_floor_frac⟩

/-- C6 witness: outside a transition the concrete state publishes exactly its
active slot id. -/
theorem C6_blend_scalar_amended_witness :
    (onCookStep stC6w inpC6w).2.switchIndex = (stC6w.activeInput : ℚ) :=
  C6_blend_scalar_amended.2.1 stC6w inpC6w rfl

/-- C7: during a blending interval the blend-control value as a function of
wall-clock elapsed time is continuous, non-decreasing for active slot 0 and
non-increasing for active slot 1, equals the active slot id at elapsed 0 and
the inactive slot id at elapsed = blendDuration; and on every blending tick
the published scalar equals that curve at the tick's elapsed time. -/
theorem C7_blend_curve :
    (∀ a : ℝ, Continuous (blendValue a)) ∧
    Monotone (blendValue 0) ∧ Antitone (blendValue 1) ∧
    (blendValue 0 0 = 0 ∧ blendValue 0 ((BLEND_DURATION : ℚ) : ℝ) = 1 ∧
     blendValue 1 0 = 1 ∧ blendValue 1 ((BLEND_DURATION : ℚ) : ℝ) = 0) ∧
    (∀ st inp, st.blending = true →
      (((onCookStep st inp).2.switchIndex : ℚ) : ℝ)
        = blendValue ((st.activeInput : ℤ) : ℝ) (((inp.now - st.blendStartTime : ℚ) : ℝ))) :=
  ⟨blendValue_continuous, blendValue_zero_mono, blendValue_one_anti,
   blendValue_endpoints, switch_real⟩

/-- C7 witness: the published scalar of a concrete blending tick equals the
blend curve at its elapsed time. -/
theorem C7_blend_curve_witness :
    (((onCookStep stC7w inpC7w).2.switchIndex : ℚ) : ℝ)
      = blendValue ((stC7w.activeInput : ℤ) : ℝ)
          (((inpC7w.now - stC7w.blendStartTime : ℚ) : ℝ)) :=
  C7_blend_curve.2.2.2.2 stC7w inpC7w rfl

/-- C8: with a catalog of fewer than 2 scenes, every tick publishes the
disabled output — blend control 0, scene index 0, next scene index 0 — issues
no load commands, and leaves storage untouched. -/
theorem C8_small_catalog_idle (env : Env) (storage : Option GState) (inp : TickInput)
    (shuffled : List String) (vFov : ℚ) (h : env.sceneFiles.length < 2) :
    (onCook env storage inp shuffled vFov).2.switchIndex = 0 ∧
    (onCook env storage inp shuffled vFov).2.sceneIndex = 0 ∧
    (onCook env storage inp shuffled vFov).2.nextSceneIndex = 0 ∧
    (onCook env storage inp shuffled vFov).2.loads = [] ∧
    (onCook env storage inp shuffled vFov).1 = storage := by
  rw [small_catalog_full env storage inp shuffled vFov h]
  simp [idleOutput]

/-- C8 witness: a one-scene catalog yields the idle output on a concrete tick. -/
theorem C8_small_catalog_idle_witness :
    (onCook envC8 none inpC8 [] 26).2.switchIndex = 0 ∧
    (onCook envC8 none inpC8 [] 26).2.sceneIndex = 0 ∧
    (onCook envC8 none inpC8 [] 26).2.nextSceneIndex = 0 ∧
    (onCook envC8 none inpC8 [] 26).2.loads = [] ∧
    (onCook envC8 none inpC8 [] 26).1 = none :=
  C8_small_catalog_idle envC8 none inpC8 [] 26 (by norm_num [envC8])

/-- C9: the published camera distance is
radius / tan(verticalFOV/2) * (1 + margin) with the 1% margin constant, and at
verticalFOV = 26 degrees and radius = 50 it is within 0.5 of 218.9. -/
theorem C9_camera_distance :
    (∀ vFov radius : ℝ, cameraDistance vFov radius
        = radius / Real.tan (vFov / 2 * (Real.pi / 180)) * (1 + 1/100)) ∧
    |cameraDistance 26 50 - 218.9| ≤ 0.5 := by
  constructor
  · intro v r; rfl
  · have ht := tan13_bounds
    have htpos : 0 < Real.tan (radians 13) := lt_trans (by norm_num) ht.1
    rw [abs_le]
    unfold cameraDistance FRAMING_MARGIN
    rw [show (26:ℝ)/2 = 13 from by norm_num]
    rw [div_mul_eq_mul_div]
    constructor
    · have h1 : (218.4:ℝ) ≤ 50 * (1 + 1/100) / Real.tan (radians 13) := by
        rw [le_div_iff htpos]; nlinarith [ht.2]
      linarith
    · have h1 : 50 * (1 + 1/100) / Real.tan (radians 13) ≤ (219.4:ℝ) := by
        rw [div_le_iff htpos]; nlinarith [ht.1]
      linarith

/-- C10: re-initialization loads catalog scenes 0 and 1 into slots 0 and 1,
sets activeSlot = 0, currentSceneIdx = 0, blending = false and
preloaded = true; an init tick issues exactly those two loads and no preload;
and while preloaded holds, with no cycle reset and no blend completion, no
further load is issued and the flag stays set. -/
theorem C10_storage_init :
    (∀ (shuffled : List String) (bounds : Bounds) (vFov : ℚ), 2 ≤ shuffled.length →
      (initStorage shuffled bounds vFov).1.activeInput = 0 ∧
      (initStorage shuffled bounds vFov).1.currentSceneIdx = 0 ∧
      (initStorage shuffled bounds vFov).1.blending = false ∧
      (initStorage shuffled bounds vFov).1.preloaded = true ∧
      (initStorage shuffled bounds vFov).2 =
        [(0, sceneFileAt shuffled 0), (1, sceneFileAt shuffled 1)]) ∧
    (∀ (env : Env) (storage : Option GState) (inp : TickInput)
        (shuffled : List String) (vFov : ℚ),
      versionMismatch storage = true → ¬(env.sceneFiles.length < 2) → 0 ≤ inp.fraction →
      (onCook env storage inp shuffled vFov).2.loads =
        (initStorage shuffled env.bounds vFov).2) ∧
    (∀ st inp, st.preloaded = true →
      ¬(inp.fraction < st.prevFraction - JITTER_TOL) →
      ¬(st.blending = true ∧ BLEND_DURATION ≤ inp.now - st.blendStartTime) →
      (onCookStep st inp).2.loads = [] ∧ (onCookStep st inp).1.preloaded = true) :=
  ⟨init_fields, init_tick_loads, preload_hold⟩

/-- C10 witness: the initialization evaluated on a concrete two-scene catalog. -/
theorem C10_storage_init_witness :
    (initStorage ["a.ply", "b.ply"] [] 26).1.activeInput = 0 ∧
    (initStorage ["a.ply", "b.ply"] [] 26).1.currentSceneIdx = 0 ∧
    (initStorage ["a.ply", "b.ply"] [] 26).1.blending = false ∧
    (initStorage ["a.ply", "b.ply"] [] 26).1.preloaded = true ∧
    (initStorage ["a.ply", "b.ply"] [] 26).2 =
      [(0, sceneFileAt ["a.ply", "b.ply"] 0), (1, sceneFileAt ["a.ply", "b.ply"] 1)] :=
  C10_storage_init.1 ["a.ply", "b.ply"] [] 26 (by norm_num)

end GalleryRotation
